import Mathlib

/-!
Verification of the multi-database toolbox core: configuration resolution
(`src/config_parser.py`), the lazy connector registry (`src/main.py`), and the
connector execution/close contracts (`src/connectors/*.py`), shallowly embedded
in Lean.  Python dictionaries are embedded as association lists, the process
environment as a partial function `String → Option String`, and each exception
site as an explicit `Except` error value carrying the exact message the code
formats.  File input and YAML parsing are upstream of every claim treated here,
so the embedding starts from the parsed `databases` list.
-/

/-- A YAML scalar value as it appears in a parsed database definition.
The source only distinguishes strings (`isinstance(value, str)`), `None`
(`config[field] is None`) and other scalars (ints such as ports); other YAML
kinds never influence the embedded code paths. -/
inductive Value where
  | str (s : String)
  | int (n : Int)
  | null
deriving DecidableEq, Repr

/-- A parsed database definition: a Python dict embedded as an association
list (keys unique and in insertion order, as Python dict iteration yields). -/
abbrev DbConfig := List (String × Value)

/-- `config.get(k)` / `k in config`: first association for the key. -/
def dictGet (c : DbConfig) (k : String) : Option Value :=
  (c.find? (fun kv => kv.1 == k)).map (fun kv => kv.2)

/-- How a Python f-string renders one of our scalar values. -/
def renderValue : Value → String
  | Value.str s => s
  | Value.int n => toString n
  | Value.null => "None"

/-- `db_config.get("id", "unknown")` as rendered into messages. -/
def dbIdOf (c : DbConfig) : String :=
  match dictGet c "id" with
  | some v => renderValue v
  | none => "unknown"

/-- `isinstance(value, str) and value.startswith("${") and value.endswith("}")`,
stated on the character list: the first two characters are the dollar-brace
opener and the last character is the closing brace. -/
def isPlaceholder : Value → Bool
  | Value.str s =>
    match s.toList with
    | '$' :: '{' :: rest => rest.getLast? == some '}'
    | _ => false
  | _ => false

/-- `value[2:-1]`: the environment-variable name inside `$\x7bNAME\x7d`. -/
def phValName : Value → String
  | Value.str s => (s.drop 2).dropRight 1
  | _ => ""

/-- The process environment, `os.environ.get`. -/
abbrev Env := String → Option String

instance {ε α : Type} [DecidableEq ε] [DecidableEq α] : DecidableEq (Except ε α) :=
  fun a b =>
    match a, b with
    | Except.error e, Except.error e2 =>
      if h : e = e2 then isTrue (by rw [h]) else isFalse (by simp [h])
    | Except.ok v, Except.ok v2 =>
      if h : v = v2 then isTrue (by rw [h]) else isFalse (by simp [h])
    | Except.error _, Except.ok _ => isFalse (by simp)
    | Except.ok _, Except.error _ => isFalse (by simp)

/-- A placeholder whose environment variable is unset. -/
def isUnresolved (env : Env) (v : Value) : Bool :=
  isPlaceholder v && (env (phValName v)).isNone

/-- The entry appended to `missing_vars`: `f"{env_var} (required by {db_id}.{key})"`. -/
def fmtMissing (name db_id key : String) : String :=
  name ++ " (required by " ++ db_id ++ "." ++ key ++ ")"

/-- One step of the resolution loop body for a single `key, value` item:
returns the (possibly substituted) item and the `missing_vars` contribution. -/
def resolveField (env : Env) (db_id : String) (kv : String × Value) :
    (String × Value) × List String :=
  if isPlaceholder kv.2 then
    match env (phValName kv.2) with
    | none => (kv, [fmtMissing (phValName kv.2) db_id kv.1])
    | some r => ((kv.1, Value.str r), [])
  else (kv, [])

/-- The inner `for key, value in db_config.items()` loop over one definition:
in-place substitution of resolvable placeholders plus the missing-variable
entries it appends, in field order.  `db_id` is read from the original dict
before the loop, exactly as the source does. -/
def resolveConfig (env : Env) (c : DbConfig) : DbConfig × List String :=
  (c.map (fun kv => (resolveField env (dbIdOf c) kv).1),
   (c.map (fun kv => (resolveField env (dbIdOf c) kv).2)).flatten)

/-- All `missing_vars` entries collected across every definition, in order. -/
def missingVarsOf (dbs : List DbConfig) (env : Env) : List String :=
  (dbs.map (fun c => (resolveConfig env c).2)).flatten

/-- The single exception class `ConfigError(msg)` of `config_parser.py`;
distinct raise sites are distinguished by the exact message they format. -/
structure ConfigError where
  msg : String
deriving DecidableEq, Repr

/-- The message of the missing-environment raise:
`"Missing required environment variables:\n" + "\n".join(f"  - {var}" ...)`. -/
def renderMissingMsg (missing : List String) : String :=
  "Missing required environment variables:\n" ++
    String.intercalate "\n" (missing.map (fun v => "  - " ++ v))

/-- Whether `field not in config or config[field] is None`. -/
def fieldMissing (c : DbConfig) (f : String) : Bool :=
  match dictGet c f with
  | none => true
  | some Value.null => true
  | some _ => false

/-- The first required field reported missing by the per-type loop. -/
def firstMissingField (c : DbConfig) (fields : List String) : Option String :=
  fields.find? (fun f => fieldMissing c f)

/-- `validate_db_config` of `src/config_parser.py`, lines 82-112: per-type
required-field validation with an if/elif chain over the `type` string. -/
def validate_db_config (c : DbConfig) : Except ConfigError Unit :=
  match dictGet c "id" with
  | none => Except.error ⟨"Database configuration missing \x27id\x27 field"⟩
  | some idv =>
    match dictGet c "type" with
    | none =>
        Except.error ⟨"Database \x27" ++ renderValue idv ++ "\x27 missing \x27type\x27 field"⟩
    | some tv =>
      let db_id := renderValue idv
      if tv = Value.str "postgres" then
        match firstMissingField c ["host", "port", "user", "password", "dbname"] with
        | some f =>
            Except.error ⟨"PostgreSQL database \x27" ++ db_id ++ "\x27 missing field: " ++ f⟩
        | none => Except.ok ()
      else if tv = Value.str "mongodb" then
        if fieldMissing c "uri" then
          Except.error ⟨"MongoDB database \x27" ++ db_id ++ "\x27 missing field: uri"⟩
        else if fieldMissing c "database" then
          Except.error ⟨"MongoDB database \x27" ++ db_id ++ "\x27 missing field: database"⟩
        else Except.ok ()
      else if tv = Value.str "redis" then
        match firstMissingField c ["host", "port", "db"] with
        | some f =>
            Except.error ⟨"Redis database \x27" ++ db_id ++ "\x27 missing field: " ++ f⟩
        | none => Except.ok ()
      else
        Except.error ⟨"Unknown database type \x27" ++ renderValue tv ++ "\x27"⟩

/-- The final validation pass of `load_config`: first failure propagates. -/
def validateAll : List DbConfig → Except ConfigError Unit
  | [] => Except.ok ()
  | c :: rest =>
    match validate_db_config c with
    | Except.error e => Except.error e
    | Except.ok _ => validateAll rest

/-- `load_config` of `src/config_parser.py` from line 45 on (after the file has
been read and YAML-parsed into the `databases` list): empty list returned as-is,
placeholder resolution collecting every missing variable before failing, then
per-definition validation. -/
def load_config_core (dbs : List DbConfig) (env : Env) :
    Except ConfigError (List DbConfig) :=
  if dbs.isEmpty then Except.ok []
  else
    let missing := missingVarsOf dbs env
    if missing.isEmpty then
      let resolved := dbs.map (fun c => (resolveConfig env c).1)
      match validateAll resolved with
      | Except.error e => Except.error e
      | Except.ok _ => Except.ok resolved
    else Except.error ⟨renderMissingMsg missing⟩

/-- Concrete configuration for the C1 witness: a postgres definition whose
`user` placeholder resolves but whose `password` placeholder does not, and a
redis definition whose `host` placeholder does not resolve either. -/
def c1dbs : List DbConfig :=
  [[("id", Value.str "pg1"), ("type", Value.str "postgres"),
    ("host", Value.str "h"), ("port", Value.int 5432),
    ("user", Value.str "$\x7bPG_USER\x7d"),
    ("password", Value.str "$\x7bPG_PASS\x7d"),
    ("dbname", Value.str "d")],
   [("id", Value.str "r1"), ("type", Value.str "redis"),
    ("host", Value.str "$\x7bR_HOST\x7d"), ("port", Value.int 6379),
    ("db", Value.int 0)]]

/-- Environment for the C1 witness: only `PG_USER` is set. -/
def c1env : Env := fun n => if n = "PG_USER" then some "alice" else none

/-- The observable shape of an executed DB-API cursor: its result description
(column names, absent for write commands), its fetched rows, and `rowcount`. -/
structure CursorResult where
  description : Option (List String)
  rows : List (List Value)
  rowcount : Int
deriving DecidableEq, Repr

/-- The driver-level outcome of `cursor.execute`, classified the way
`src/connectors/postgres.py` catches it (`ProgrammingError`,
`OperationalError`, or any other exception). -/
inductive DriverErr where
  | programming (m : String)
  | operational (m : String)
  | other (m : String)
deriving DecidableEq, Repr

/-- What the driver did with an executed command: either a cursor, or a raise. -/
abbrev ExecOutcome := Except DriverErr CursorResult

/-- The transaction-control call the connector issued on the borrowed
connection before returning or re-raising. -/
inductive TxnEffect where
  | committed
  | rolledBack
  | noEffect
deriving DecidableEq, Repr

/-- The error surfaced to the caller of `execute_query`:
`ValueError(f"SQL query error: ...")`, `ConnectionError(f"Database connection
error: ...")`, or the original driver exception re-raised by a bare `raise`. -/
inductive QueryError where
  | valueError (m : String)
  | connectionError (m : String)
  | reraised (e : DriverErr)
deriving DecidableEq, Repr

/-- The successful return of `execute_query`: a list of column-name/value
dictionaries (read path) or the affected-row message string (write path). -/
inductive QueryResult where
  | rows (rs : List (List (String × Value)))
  | message (s : String)
deriving DecidableEq, Repr

namespace PostgresConnector

/-- `PostgresConnector.execute_query` of `src/connectors/postgres.py`, lines
71-105, from `cursor.execute(query, params)` onward.  The driver's response is
the `outcome` argument; `query` is retained (it is passed only to the driver)
to make explicit that the read-vs-write branch never inspects it.  Pool
acquire/release in the `finally` block is connection bookkeeping orthogonal to
the result and transaction effect and is not modelled. -/
def execute_query (query : String) (outcome : ExecOutcome) :
    Except QueryError QueryResult × TxnEffect :=
  match outcome with
  | Except.ok cur =>
    match cur.description with
    | some columns =>
        (Except.ok (QueryResult.rows (cur.rows.map (fun row => columns.zip row))),
         TxnEffect.noEffect)
    | none =>
        (Except.ok (QueryResult.message (toString cur.rowcount ++ " row(s) affected")),
         TxnEffect.committed)
  | Except.error (DriverErr.programming m) =>
      (Except.error (QueryError.valueError ("SQL query error: " ++ m)),
       TxnEffect.rolledBack)
  | Except.error (DriverErr.operational m) =>
      (Except.error (QueryError.connectionError ("Database connection error: " ++ m)),
       TxnEffect.noEffect)
  | Except.error (DriverErr.other m) =>
      (Except.error (QueryError.reraised (DriverErr.other m)), TxnEffect.rolledBack)

end PostgresConnector

namespace HANAConnector

/-- `HANAConnector.execute_query` of `src/connectors/hanadb.py`, lines 70-101,
from `cursor.execute` onward: identical read/write branch on
`cursor.description`; every exception triggers rollback and is re-raised.
Cursor close in the `finally` block is not modelled. -/
def execute_query (query : String) (outcome : ExecOutcome) :
    Except QueryError QueryResult × TxnEffect :=
  match outcome with
  | Except.ok cur =>
    match cur.description with
    | some columns =>
        (Except.ok (QueryResult.rows (cur.rows.map (fun row => columns.zip row))),
         TxnEffect.noEffect)
    | none =>
        (Except.ok (QueryResult.message (toString cur.rowcount ++ " row(s) affected")),
         TxnEffect.committed)
  | Except.error e =>
      (Except.error (QueryError.reraised e), TxnEffect.rolledBack)

end HANAConnector

/-- A live connector object; only identity matters to the registry claims, so
handles are numbered. -/
abbrev Handle := Nat

/-- How constructing a connector can fail inside the `try` of
`get_or_create_connector`: the lazy `import` raises `ImportError`, or the
connector constructor / its eager connectivity check raises. -/
inductive CtorErr where
  | importErr (m : String)
  | exc (m : String)
deriving DecidableEq, Repr

/-- The exceptions `get_or_create_connector` lets escape, one constructor per
raise site of `src/main.py` lines 44-75. -/
inductive RegError where
  | notConfigured (db_id : String)
  | unknownType (t : String)
  | missingDependency (db_type m : String)
  | initFailure (m : String)
  | typeKeyError
deriving DecidableEq, Repr

/-- The module-level mutable state of `src/main.py`: the `connectors` dict and
the memoized `db_configs_cache` list. -/
structure RegState where
  connectors : List (String × Handle)
  configs : List DbConfig
deriving DecidableEq, Repr

/-- `db_id in connectors` / `connectors[db_id]`. -/
def lookupConnector (l : List (String × Handle)) (db_id : String) : Option Handle :=
  (l.find? (fun kv => kv.1 == db_id)).map (fun kv => kv.2)

/-- `connectors[db_id] = handle` for a key not yet present (the only state in
which the source performs the assignment): appends in dict insertion order. -/
def insertConnector (l : List (String × Handle)) (db_id : String) (h : Handle) :
    List (String × Handle) :=
  l ++ [(db_id, h)]

/-- `get_or_create_connector` of `src/main.py`, lines 39-75, against an
already-loaded configuration cache (`load_db_configs` memoization is the
`configs` field of the state).  The three per-type constructor classes are
abstracted into the single `construct` parameter — the driver-backed
constructor for the matched definition (its behaviour may depend on the
definition, which carries the `type`).  A `KeyError` from `config["type"]` can
only arise on unvalidated definitions and is given its own error constructor. -/
def get_or_create_connector (st : RegState)
    (construct : DbConfig → Except CtorErr Handle) (db_id : String) :
    Except RegError Handle × RegState :=
  match lookupConnector st.connectors db_id with
  | some h => (Except.ok h, st)
  | none =>
    match st.configs.find? (fun c => dictGet c "id" == some (Value.str db_id)) with
    | none => (Except.error (RegError.notConfigured db_id), st)
    | some config =>
      match dictGet config "type" with
      | none => (Except.error RegError.typeKeyError, st)
      | some tv =>
        if tv = Value.str "postgres" ∨ tv = Value.str "mongodb" ∨ tv = Value.str "redis" then
          match construct config with
          | Except.ok h =>
              (Except.ok h, { st with connectors := insertConnector st.connectors db_id h })
          | Except.error (CtorErr.importErr m) =>
              (Except.error (RegError.missingDependency (renderValue tv) m), st)
          | Except.error (CtorErr.exc m) =>
              (Except.error (RegError.initFailure m), st)
        else (Except.error (RegError.unknownType (renderValue tv)), st)

/-- Concrete postgres definition used by the registry witnesses. -/
def c5pg : DbConfig :=
  [("id", Value.str "pg1"), ("type", Value.str "postgres"),
   ("host", Value.str "h"), ("port", Value.int 5432),
   ("user", Value.str "u"), ("password", Value.str "p"),
   ("dbname", Value.str "d")]

/-- Concrete redis definition used by the registry witnesses. -/
def c5r1 : DbConfig :=
  [("id", Value.str "r1"), ("type", Value.str "redis"),
   ("host", Value.str "h"), ("port", Value.int 6379),
   ("db", Value.int 0)]

/-- State for the registry witnesses: a valid two-database configuration,
nothing cached yet. -/
def c5state : RegState :=
  { connectors := [], configs := [c5pg, c5r1] }

/-- A constructor whose eager connectivity check fails, for the C6 witness. -/
def c6fail : DbConfig → Except CtorErr Handle :=
  fun _ => Except.error (CtorErr.exc "connection refused")

/-- A constructor that succeeds with handle 7, for the C6 witness retry. -/
def c6ok : DbConfig → Except CtorErr Handle :=
  fun _ => Except.ok 7

/-- Program counter for one caller running `get_or_create_connector` on a
`db_id` with no cached handle and a valid definition, successful construction:
`check` is the `db_id in connectors` test (line 41, returning the cached value
on a hit), `build` the connector construction (line 56, right-hand side),
`assign` the dict store (line 56, assignment), `readRet` the final
`return connectors[db_id]` (line 67). -/
inductive Pc where
  | check
  | build
  | assign
  | readRet
  | done
deriving DecidableEq, Fintype, Repr

/-- The two concurrent callers; also used as the identity of the connector
object each one constructs. -/
inductive Tid where
  | a
  | b
deriving DecidableEq, Fintype, Repr

/-- Interleaving state of two concurrent first calls for the same `db_id`:
each caller's program counter, whether it has constructed a connector, the
single `connectors[db_id]` slot, and each caller's returned handle. -/
structure RaceState where
  pcA : Pc
  pcB : Pc
  builtA : Bool
  builtB : Bool
  cache : Option Tid
  retA : Option Tid
  retB : Option Tid
deriving DecidableEq, Repr

/-- Both callers at the cache-membership test, nothing constructed or cached. -/
def raceInit : RaceState :=
  { pcA := Pc.check, pcB := Pc.check, builtA := false, builtB := false,
    cache := none, retA := none, retB := none }

/-- One atomic statement of caller A. -/
def stepA (s : RaceState) : RaceState :=
  match s.pcA with
  | Pc.check =>
    match s.cache with
    | some h => { s with retA := some h, pcA := Pc.done }
    | none => { s with pcA := Pc.build }
  | Pc.build => { s with builtA := true, pcA := Pc.assign }
  | Pc.assign => { s with cache := some Tid.a, pcA := Pc.readRet }
  | Pc.readRet => { s with retA := s.cache, pcA := Pc.done }
  | Pc.done => s

/-- One atomic statement of caller B. -/
def stepB (s : RaceState) : RaceState :=
  match s.pcB with
  | Pc.check =>
    match s.cache with
    | some h => { s with retB := some h, pcB := Pc.done }
    | none => { s with pcB := Pc.build }
  | Pc.build => { s with builtB := true, pcB := Pc.assign }
  | Pc.assign => { s with cache := some Tid.b, pcB := Pc.readRet }
  | Pc.readRet => { s with retB := s.cache, pcB := Pc.done }
  | Pc.done => s

/-- Run one step of the scheduled caller. -/
def raceStep (s : RaceState) (t : Tid) : RaceState :=
  match t with
  | Tid.a => stepA s
  | Tid.b => stepB s

/-- Execute a schedule (an arbitrary interleaving) from the initial state. -/
def raceRun (sched : List Tid) : RaceState :=
  sched.foldl raceStep raceInit

/-- How many connectors were constructed in a run. -/
def builtCount (s : RaceState) : Nat :=
  (if s.builtA then 1 else 0) + (if s.builtB then 1 else 0)

/-- Inductive invariant of the race model: a caller past `build` has
constructed; a caller at or past `readRet` (or finished) has the cache slot
populated; a populated cache slot implies somebody constructed. -/
def raceInv (s : RaceState) : Prop :=
  ((s.pcA = Pc.assign ∨ s.pcA = Pc.readRet) → s.builtA = true) ∧
  ((s.pcB = Pc.assign ∨ s.pcB = Pc.readRet) → s.builtB = true) ∧
  ((s.pcA = Pc.readRet ∨ s.pcA = Pc.done) → s.cache.isSome = true) ∧
  ((s.pcB = Pc.readRet ∨ s.pcB = Pc.done) → s.cache.isSome = true) ∧
  (s.cache.isSome = true → s.builtA = true ∨ s.builtB = true)

instance (s : RaceState) : Decidable (raceInv s) :=
  inferInstanceAs (Decidable (
    ((s.pcA = Pc.assign ∨ s.pcA = Pc.readRet) → s.builtA = true) ∧
    ((s.pcB = Pc.assign ∨ s.pcB = Pc.readRet) → s.builtB = true) ∧
    ((s.pcA = Pc.readRet ∨ s.pcA = Pc.done) → s.cache.isSome = true) ∧
    ((s.pcB = Pc.readRet ∨ s.pcB = Pc.done) → s.cache.isSome = true) ∧
    (s.cache.isSome = true → s.builtA = true ∨ s.builtB = true)))

/-- The schedule in which both callers pass the cache test before either has
assigned: check A, check B, then A builds/assigns/returns, then B. -/
def c8sched : List Tid :=
  [Tid.a, Tid.b, Tid.a, Tid.a, Tid.a, Tid.b, Tid.b, Tid.b]

/-- The psycopg2 connection pool as seen through `close`: whether `closeall`
has run. -/
structure PgPool where
  closed : Bool
deriving DecidableEq, Repr

/-- The close-relevant attributes of a `PostgresConnector` instance: `pool` is
`none` when `__init__` raised before the attribute was ever set (the
`hasattr` case). -/
structure PgConnState where
  pool : Option PgPool
deriving DecidableEq, Repr

/-- Modelled from the spec: `SimpleConnectionPool.closeall` is driver code, not
in `src/`; per the spec resource-release contract it "releases all held
connections/pool slots" and raises nothing, so it is embedded as marking the
pool closed. -/
def pool_closeall (p : PgPool) : PgPool :=
  { closed := true }

namespace PostgresConnector

/-- `PostgresConnector.close`, `src/connectors/postgres.py` lines 107-111:
`if hasattr(self, "pool") and self.pool: self.pool.closeall()` (a pool object
is always truthy). -/
def close (c : PgConnState) : Except DriverErr PgConnState :=
  match c.pool with
  | none => Except.ok c
  | some p => Except.ok { pool := some (pool_closeall p) }

end PostgresConnector

/-- The redis client as seen through `close`: whether its connections have
been released. -/
structure RedisClient where
  connected : Bool
deriving DecidableEq, Repr

/-- The close-relevant attributes of a `RedisConnector` instance; `client` is
`none` when `__init__` raised before `self.client` was set. -/
structure RedisConnState where
  client : Option RedisClient
deriving DecidableEq, Repr

/-- Modelled from the spec: `redis.Redis.close` is driver code, not in `src/`;
per the spec resource-release contract it releases the connection and raises
nothing (the redis client documents close as safe to repeat). -/
def redis_client_close (cl : RedisClient) : RedisClient :=
  { connected := false }

namespace RedisConnector

/-- `RedisConnector.close`, `src/connectors/redis.py` lines 130-133:
`if hasattr(self, "client") and self.client: self.client.close()`. -/
def close (c : RedisConnState) : Except DriverErr RedisConnState :=
  match c.client with
  | none => Except.ok c
  | some cl => Except.ok { client := some (redis_client_close cl) }

end RedisConnector

/-- The pymongo client as seen through `close`. -/
structure MongoClient where
  connected : Bool
deriving DecidableEq, Repr

/-- The close-relevant attributes of a `MongoDBConnector` instance; `client`
is `none` when `__init__` raised before `self.client` was set. -/
structure MongoConnState where
  client : Option MongoClient
deriving DecidableEq, Repr

/-- Modelled from the spec: `MongoClient.close` is driver code, not in `src/`;
per the spec resource-release contract it releases the connection and raises
nothing (pymongo documents close as safe to repeat). -/
def mongo_client_close (cl : MongoClient) : MongoClient :=
  { connected := false }

namespace MongoDBConnector

/-- `MongoDBConnector.close`, `src/connectors/mongodb.py` lines 127-130:
`if hasattr(self, "client") and self.client: self.client.close()`. -/
def close (c : MongoConnState) : Except DriverErr MongoConnState :=
  match c.client with
  | none => Except.ok c
  | some cl => Except.ok { client := some (mongo_client_close cl) }

end MongoDBConnector

/-- The redis key space reachable through the connector. -/
abbrev RedisStore := String → Option String

/-- How `src/connectors/redis.py` classifies driver exceptions: `RedisError`
(re-labelled `ConnectionError`) or anything else (re-raised). -/
inductive RedisDriverErr where
  | redisError (m : String)
  | other (m : String)
deriving DecidableEq, Repr

/-- The error surfaced by the redis connector operations. -/
inductive RedisOpError where
  | connectionError (m : String)
  | reraised (e : RedisDriverErr)
deriving DecidableEq, Repr

/-- Modelled from the spec: the redis driver call `client.get(key)` is not in
`src/`; with `decode_responses=True` it returns the stored string, or `None`
when the key is absent. -/
def redis_client_get (store : RedisStore) (key : String) : Option String :=
  store key

/-- Modelled from the spec: the redis driver call `client.delete(key)` is not
in `src/`; it removes the key and returns the number of keys deleted
(0 when the key is absent, 1 otherwise). -/
def redis_client_delete (store : RedisStore) (key : String) : RedisStore × Nat :=
  (fun k => if k = key then none else store k,
   if (store key).isSome then 1 else 0)

namespace RedisConnector

/-- `RedisConnector.get`, `src/connectors/redis.py` lines 45-71, around the
driver call whose outcome is the argument: the returned value (None included)
is passed through unchanged; `RedisError` is re-raised as `ConnectionError`,
anything else propagates. -/
def get (outcome : Except RedisDriverErr (Option String)) :
    Except RedisOpError (Option String) :=
  match outcome with
  | Except.ok v => Except.ok v
  | Except.error (RedisDriverErr.redisError m) =>
      Except.error (RedisOpError.connectionError ("Redis error: " ++ m))
  | Except.error e => Except.error (RedisOpError.reraised e)

/-- `RedisConnector.delete`, `src/connectors/redis.py` lines 102-128, around
the driver call: the deleted-key count is returned unchanged (0 included),
with the same error re-labelling as `get`. -/
def delete (outcome : Except RedisDriverErr Nat) : Except RedisOpError Nat :=
  match outcome with
  | Except.ok n => Except.ok n
  | Except.error (RedisDriverErr.redisError m) =>
      Except.error (RedisOpError.connectionError ("Redis error: " ++ m))
  | Except.error e => Except.error (RedisOpError.reraised e)

end RedisConnector

example :
    load_config_core
      [[("id", Value.str "pg1"), ("type", Value.str "postgres"),
        ("host", Value.str "h"), ("port", Value.int 5432),
        ("user", Value.str "u"), ("password", Value.str "$\x7bPG_PASS\x7d"),
        ("dbname", Value.str "d")]]
      (fun _ => none)
    = Except.error ⟨"Missing required environment variables:\n  - PG_PASS (required by pg1.password)"⟩ := by
  rfl

theorem mem_resolveField_snd (env : Env) (db_id : String) (kv : String × Value)
    (s : String) :
    s ∈ (resolveField env db_id kv).2 ↔
      isUnresolved env kv.2 = true ∧ s = fmtMissing (phValName kv.2) db_id kv.1 := by
  unfold resolveField isUnresolved
  by_cases hp : isPlaceholder kv.2 = true
  · cases he : env (phValName kv.2) <;> simp [hp, he]
  · simp [hp]

theorem mem_resolveConfig_snd (env : Env) (c : DbConfig) (s : String) :
    s ∈ (resolveConfig env c).2 ↔
      ∃ kv ∈ c, isUnresolved env kv.2 = true ∧
        s = fmtMissing (phValName kv.2) (dbIdOf c) kv.1 := by
  unfold resolveConfig
  simp only [List.mem_flatten, List.mem_map]
  constructor
  · rintro ⟨l, ⟨kv, hkv, rfl⟩, hs⟩
    exact ⟨kv, hkv, (mem_resolveField_snd env (dbIdOf c) kv s).1 hs⟩
  · rintro ⟨kv, hkv, h⟩
    exact ⟨_, ⟨kv, hkv, rfl⟩, (mem_resolveField_snd env (dbIdOf c) kv s).2 h⟩

theorem mem_missingVarsOf (dbs : List DbConfig) (env : Env) (s : String) :
    s ∈ missingVarsOf dbs env ↔
      ∃ c ∈ dbs, ∃ kv ∈ c, isUnresolved env kv.2 = true ∧
        s = fmtMissing (phValName kv.2) (dbIdOf c) kv.1 := by
  unfold missingVarsOf
  simp only [List.mem_flatten, List.mem_map]
  constructor
  · rintro ⟨l, ⟨c, hc, rfl⟩, hs⟩
    exact ⟨c, hc, (mem_resolveConfig_snd env c s).1 hs⟩
  · rintro ⟨c, hc, h⟩
    exact ⟨_, ⟨c, hc, rfl⟩, (mem_resolveConfig_snd env c s).2 h⟩

/-- C1: if at least one field value of some definition is an unresolvable
placeholder, `load_config` fails with the missing-environment `ConfigError`
whose message renders exactly the list of all unresolved entries, each
formatted as `NAME (required by id.field)` and collected across every
definition (so a resolvable placeholder elsewhere never suppresses the error),
and no definition set is returned. -/
theorem load_config_reports_every_missing_var (dbs : List DbConfig) (env : Env)
    (h : ∃ c ∈ dbs, ∃ kv ∈ c, isUnresolved env kv.2 = true) :
    load_config_core dbs env =
      Except.error ⟨renderMissingMsg (missingVarsOf dbs env)⟩ ∧
    ∀ s : String, s ∈ missingVarsOf dbs env ↔
      ∃ c ∈ dbs, ∃ kv ∈ c, isUnresolved env kv.2 = true ∧
        s = fmtMissing (phValName kv.2) (dbIdOf c) kv.1 := by
  obtain ⟨c, hc, kv, hkv, hu⟩ := h
  have hmem : fmtMissing (phValName kv.2) (dbIdOf c) kv.1 ∈ missingVarsOf dbs env :=
    (mem_missingVarsOf dbs env _).2 ⟨c, hc, kv, hkv, hu, rfl⟩
  have hne : missingVarsOf dbs env ≠ [] := List.ne_nil_of_mem hmem
  have hdbs : dbs ≠ [] := List.ne_nil_of_mem hc
  refine ⟨?_, fun s => mem_missingVarsOf dbs env s⟩
  simp only [load_config_core]
  rw [if_neg (by simp [hdbs]), if_neg (by simp [hne])]

theorem load_config_reports_every_missing_var_witness :
    (∃ c ∈ c1dbs, ∃ kv ∈ c, isUnresolved c1env kv.2 = true) ∧
    load_config_core c1dbs c1env =
      Except.error ⟨renderMissingMsg (missingVarsOf c1dbs c1env)⟩ :=
  ⟨by decide, (load_config_reports_every_missing_var c1dbs c1env (by decide)).1⟩

example :
    load_config_core c1dbs c1env =
      Except.error ⟨"Missing required environment variables:\n  - PG_PASS (required by pg1.password)\n  - R_HOST (required by r1.host)"⟩ := by
  rfl

/-- C2: the spec requires `validate` to accept a hana definition whose `host`,
`port`, `user` and `password` are present and non-null (`dbname` optional);
`validate_db_config` has no hana branch and rejects the type as unknown, even
though `src/connectors/hanadb.py` implements exactly this definition shape. -/
theorem validate_db_config_rejects_hana :
    validate_db_config
      [("id", Value.str "hana1"), ("type", Value.str "hana"),
       ("host", Value.str "localhost"), ("port", Value.int 39015),
       ("user", Value.str "u"), ("password", Value.str "p")]
    = Except.error ⟨"Unknown database type \x27hana\x27"⟩ := by
  rfl

/-- C3: a command producing no result description takes the write path on both
SQL connectors: the transaction is committed and the returned value is the
string `N row(s) affected` for the cursor's affected-row count; and the
read-vs-write branch depends only on the driver outcome, never on the command
text. -/
theorem write_path_commits_and_reports_rowcount (cur : CursorResult) (q : String)
    (hdesc : cur.description = none) :
    PostgresConnector.execute_query q (Except.ok cur) =
      (Except.ok (QueryResult.message (toString cur.rowcount ++ " row(s) affected")),
       TxnEffect.committed) ∧
    HANAConnector.execute_query q (Except.ok cur) =
      (Except.ok (QueryResult.message (toString cur.rowcount ++ " row(s) affected")),
       TxnEffect.committed) ∧
    (∀ q1 q2 : String, ∀ o : ExecOutcome,
      PostgresConnector.execute_query q1 o = PostgresConnector.execute_query q2 o) ∧
    (∀ q1 q2 : String, ∀ o : ExecOutcome,
      HANAConnector.execute_query q1 o = HANAConnector.execute_query q2 o) := by
  refine ⟨?_, ?_, fun q1 q2 o => rfl, fun q1 q2 o => rfl⟩ <;>
    simp [PostgresConnector.execute_query, HANAConnector.execute_query, hdesc]

theorem write_path_commits_and_reports_rowcount_witness :
    (CursorResult.mk none [] 3).description = none ∧
    PostgresConnector.execute_query "UPDATE t SET x = 1"
        (Except.ok (CursorResult.mk none [] 3)) =
      (Except.ok (QueryResult.message "3 row(s) affected"), TxnEffect.committed) :=
  ⟨rfl,
   (write_path_commits_and_reports_rowcount (CursorResult.mk none [] 3)
     "UPDATE t SET x = 1" rfl).1⟩

/-- C4 counterexample: an UPDATE failing with a driver `OperationalError` is
re-raised as `ConnectionError` with no rollback issued — the claim that the
transaction is rolled back whatever the driver error is false on the postgres
connector. -/
theorem failed_write_operational_skips_rollback :
    PostgresConnector.execute_query "UPDATE t SET x = 1"
        (Except.error (DriverErr.operational "server closed the connection")) =
      (Except.error (QueryError.connectionError
          "Database connection error: server closed the connection"),
       TxnEffect.noEffect) ∧
    TxnEffect.noEffect ≠ TxnEffect.rolledBack := by
  exact ⟨rfl, by decide⟩

/-- C4 amended: a failing command never commits, and the transaction is rolled
back before the error propagates for `ProgrammingError` and for unexpected
exceptions — but a driver `OperationalError` propagates as `ConnectionError`
without any rollback. -/
theorem failed_write_never_commits_rollback_cases (q : String) (e : DriverErr) :
    (∃ qe : QueryError,
        (PostgresConnector.execute_query q (Except.error e)).1 = Except.error qe) ∧
    (PostgresConnector.execute_query q (Except.error e)).2 ≠ TxnEffect.committed ∧
    (∀ m, (PostgresConnector.execute_query q
        (Except.error (DriverErr.programming m))).2 = TxnEffect.rolledBack) ∧
    (∀ m, (PostgresConnector.execute_query q
        (Except.error (DriverErr.other m))).2 = TxnEffect.rolledBack) ∧
    (∀ m, (PostgresConnector.execute_query q
        (Except.error (DriverErr.operational m))).2 = TxnEffect.noEffect) := by
  cases e <;> simp [PostgresConnector.execute_query]

/-- C5: a `db_id` cached by no prior success and matching no loaded definition
(vacuously including the zero-database configuration) fails with the
database-not-configured error naming that `db_id`, and the connector cache is
left unchanged. -/
theorem get_or_create_unknown_id (st : RegState)
    (construct : DbConfig → Except CtorErr Handle) (db_id : String)
    (hcache : lookupConnector st.connectors db_id = none)
    (hconf : ∀ c ∈ st.configs, dictGet c "id" ≠ some (Value.str db_id)) :
    get_or_create_connector st construct db_id =
      (Except.error (RegError.notConfigured db_id), st) := by
  have hfind : st.configs.find? (fun c => dictGet c "id" == some (Value.str db_id)) = none := by
    rw [List.find?_eq_none]
    intro c hc
    simpa using hconf c hc
  simp [get_or_create_connector, hcache, hfind]

theorem get_or_create_unknown_id_witness :
    (lookupConnector c5state.connectors "unknown" = none ∧
      ∀ c ∈ c5state.configs, dictGet c "id" ≠ some (Value.str "unknown")) ∧
    get_or_create_connector c5state (fun _ => Except.ok 1) "unknown" =
      (Except.error (RegError.notConfigured "unknown"), c5state) :=
  ⟨⟨by decide, by decide⟩,
   get_or_create_unknown_id c5state (fun _ => Except.ok 1) "unknown"
     (by decide) (by decide)⟩

/-- C6: when the matched definition's constructor (or its eager connectivity
check) fails, `get_or_create_connector` raises an error carrying the driver
failure — the dependency message for an `ImportError`, the re-raised
constructor exception otherwise — and stores nothing in the cache, so a
subsequent call with the same `db_id` runs construction again from scratch
(and succeeds if the retry's constructor succeeds). -/
theorem get_or_create_failure_not_cached (st : RegState)
    (construct construct2 : DbConfig → Except CtorErr Handle) (db_id : String)
    (config : DbConfig) (tv : Value) (e : CtorErr) (h2 : Handle)
    (hcache : lookupConnector st.connectors db_id = none)
    (hfind : st.configs.find? (fun c => dictGet c "id" == some (Value.str db_id)) = some config)
    (htype : dictGet config "type" = some tv)
    (hsupp : tv = Value.str "postgres" ∨ tv = Value.str "mongodb" ∨ tv = Value.str "redis")
    (hfail : construct config = Except.error e)
    (hretry : construct2 config = Except.ok h2) :
    get_or_create_connector st construct db_id =
      ((match e with
        | CtorErr.importErr m => Except.error (RegError.missingDependency (renderValue tv) m)
        | CtorErr.exc m => Except.error (RegError.initFailure m)), st) ∧
    get_or_create_connector st construct2 db_id =
      (Except.ok h2, { st with connectors := insertConnector st.connectors db_id h2 }) := by
  cases e <;>
    simp [get_or_create_connector, hcache, hfind, htype, hsupp, hfail, hretry]

theorem get_or_create_failure_not_cached_witness :
    (lookupConnector c5state.connectors "pg1" = none ∧
      c6fail c5pg = Except.error (CtorErr.exc "connection refused") ∧
      c6ok c5pg = Except.ok 7) ∧
    get_or_create_connector c5state c6fail "pg1" =
      (Except.error (RegError.initFailure "connection refused"), c5state) ∧
    get_or_create_connector c5state c6ok "pg1" =
      (Except.ok 7, { c5state with connectors := insertConnector c5state.connectors "pg1" 7 }) :=
  ⟨⟨rfl, rfl, rfl⟩,
   get_or_create_failure_not_cached c5state c6fail c6ok "pg1" c5pg
     (Value.str "postgres") (CtorErr.exc "connection refused") 7
     rfl (by decide) rfl (Or.inl rfl) rfl rfl⟩

theorem lookupConnector_insert (l : List (String × Handle)) (db_id : String)
    (h : Handle) :
    lookupConnector (insertConnector l db_id h) db_id =
      (lookupConnector l db_id).orElse (fun _ => some h) := by
  induction l with
  | nil => simp [lookupConnector, insertConnector]
  | cons kv rest ih =>
    by_cases hk : kv.1 == db_id
    · simp [lookupConnector, insertConnector, List.find?_cons, hk]
    · simpa [lookupConnector, insertConnector, List.find?_cons, hk] using ih

/-- C7: once a call to `get_or_create_connector` for some `db_id` has
succeeded, any later call with that `db_id` returns the identical cached
handle and the unchanged state, whatever constructor the later call would
have used — no new connection is constructed. -/
theorem get_or_create_idempotent_after_success (st st2 : RegState)
    (construct construct2 : DbConfig → Except CtorErr Handle)
    (db_id : String) (h : Handle)
    (hfirst : get_or_create_connector st construct db_id = (Except.ok h, st2)) :
    get_or_create_connector st2 construct2 db_id = (Except.ok h, st2) := by
  have hlook : lookupConnector st2.connectors db_id = some h := by
    unfold get_or_create_connector at hfirst
    repeat' split at hfirst
    all_goals simp_all [lookupConnector_insert, Option.orElse]
    obtain ⟨h1, h2⟩ := hfirst
    subst h1
    subst h2
    simp_all [lookupConnector_insert, Option.orElse]
  unfold get_or_create_connector
  rw [hlook]

theorem get_or_create_idempotent_after_success_witness :
    get_or_create_connector c5state c6ok "pg1" =
      (Except.ok 7, { c5state with connectors := insertConnector c5state.connectors "pg1" 7 }) ∧
    get_or_create_connector
        { c5state with connectors := insertConnector c5state.connectors "pg1" 7 }
        c6fail "pg1" =
      (Except.ok 7, { c5state with connectors := insertConnector c5state.connectors "pg1" 7 }) :=
  ⟨rfl,
   get_or_create_idempotent_after_success c5state
     { c5state with connectors := insertConnector c5state.connectors "pg1" 7 }
     c6ok c6fail "pg1" 7 rfl⟩

theorem raceInv_step (s : RaceState) (h : raceInv s) (t : Tid) :
    raceInv (raceStep s t) := by
  obtain ⟨pcA, pcB, bA, bB, cache, rA, rB⟩ := s
  cases t <;> cases pcA <;> cases pcB <;> cases cache <;>
    simp_all [raceStep, stepA, stepB, raceInv]

theorem raceInv_run (sched : List Tid) : raceInv (raceRun sched) := by
  suffices h : ∀ s : RaceState, raceInv s → raceInv (sched.foldl raceStep s) from
    h raceInit (by decide)
  induction sched with
  | nil => intro s hs; exact hs
  | cons t rest ih => intro s hs; exact ih (raceStep s t) (raceInv_step s hs t)

/-- C8 counterexample: with both callers interleaved past the unsynchronized
cache test, two connectors are constructed (not exactly one), caller A returns
its own handle while caller B's assignment is the one that survives in the
cache — so not all callers observe the single winning handle. -/
theorem race_two_connectors_constructed :
    builtCount (raceRun c8sched) = 2 ∧
    builtCount (raceRun c8sched) ≠ 1 ∧
    (raceRun c8sched).pcA = Pc.done ∧
    (raceRun c8sched).pcB = Pc.done ∧
    (raceRun c8sched).retA = some Tid.a ∧
    (raceRun c8sched).retB = some Tid.b ∧
    (raceRun c8sched).cache = some Tid.b ∧
    (raceRun c8sched).retA ≠ (raceRun c8sched).cache := by
  decide

/-- C8 amended: the module-level dict gives every completed run exactly one
surviving cached handle for the `db_id` (a single slot — two live connectors
are never both cached), and between one and two connectors are constructed;
but without synchronization a schedule can construct two and callers can
observe different handles, refuting at-most-one-construction. -/
theorem race_one_cached_handle_survives (sched : List Tid)
    (hA : (raceRun sched).pcA = Pc.done) (hB : (raceRun sched).pcB = Pc.done) :
    (raceRun sched).cache.isSome = true ∧
    1 ≤ builtCount (raceRun sched) ∧ builtCount (raceRun sched) ≤ 2 := by
  have h := raceInv_run sched
  obtain ⟨h1, h2, h3, h4, h5⟩ := h
  have hsome : (raceRun sched).cache.isSome = true := h3 (Or.inr hA)
  refine ⟨hsome, ?_, ?_⟩ <;>
    rcases h5 hsome with hb | hb <;>
      simp [builtCount, hb] <;> split <;> simp

theorem race_one_cached_handle_survives_witness :
    ((raceRun [Tid.a, Tid.a, Tid.a, Tid.a, Tid.b]).pcA = Pc.done ∧
      (raceRun [Tid.a, Tid.a, Tid.a, Tid.a, Tid.b]).pcB = Pc.done) ∧
    ((raceRun [Tid.a, Tid.a, Tid.a, Tid.a, Tid.b]).cache.isSome = true ∧
      1 ≤ builtCount (raceRun [Tid.a, Tid.a, Tid.a, Tid.a, Tid.b]) ∧
      builtCount (raceRun [Tid.a, Tid.a, Tid.a, Tid.a, Tid.b]) ≤ 2) :=
  ⟨⟨by decide, by decide⟩,
   race_one_cached_handle_survives [Tid.a, Tid.a, Tid.a, Tid.a, Tid.b]
     (by decide) (by decide)⟩

/-- C9: on every connector variant `close` raises no error from any state, a
second `close` after a successful one raises no error either, and `close` on
an instance whose initialization failed before the pool/client attribute was
set (the `hasattr` guard) is a harmless no-op. -/
theorem close_idempotent_and_partial_init_safe :
    (∀ c : PgConnState, ∃ c1 : PgConnState, PostgresConnector.close c = Except.ok c1 ∧
      PostgresConnector.close c1 = Except.ok c1) ∧
    PostgresConnector.close ⟨none⟩ = Except.ok ⟨none⟩ ∧
    (∀ c : RedisConnState, ∃ c1 : RedisConnState, RedisConnector.close c = Except.ok c1 ∧
      RedisConnector.close c1 = Except.ok c1) ∧
    RedisConnector.close ⟨none⟩ = Except.ok ⟨none⟩ ∧
    (∀ c : MongoConnState, ∃ c1 : MongoConnState, MongoDBConnector.close c = Except.ok c1 ∧
      MongoDBConnector.close c1 = Except.ok c1) ∧
    MongoDBConnector.close ⟨none⟩ = Except.ok ⟨none⟩ := by
  refine ⟨fun c => ?_, rfl, fun c => ?_, rfl, fun c => ?_, rfl⟩
  · match c with
    | ⟨none⟩ => exact ⟨⟨none⟩, rfl, rfl⟩
    | ⟨some p⟩ => exact ⟨⟨some (pool_closeall p)⟩, rfl, rfl⟩
  · match c with
    | ⟨none⟩ => exact ⟨⟨none⟩, rfl, rfl⟩
    | ⟨some cl⟩ => exact ⟨⟨some (redis_client_close cl)⟩, rfl, rfl⟩
  · match c with
    | ⟨none⟩ => exact ⟨⟨none⟩, rfl, rfl⟩
    | ⟨some cl⟩ => exact ⟨⟨some (mongo_client_close cl)⟩, rfl, rfl⟩

/-- C10: for a key absent from the store, the connector's `get` returns `None`
(no error) and its `delete` returns 0 (no error): a missing key is an
absent-value result at the tool surface, never a failure. -/
theorem missing_key_not_an_error (store : RedisStore) (key : String)
    (habsent : store key = none) :
    RedisConnector.get (Except.ok (redis_client_get store key)) =
      Except.ok none ∧
    RedisConnector.delete (Except.ok ((redis_client_delete store key).2)) =
      Except.ok 0 := by
  simp [RedisConnector.get, RedisConnector.delete, redis_client_get,
    redis_client_delete, habsent]

theorem missing_key_not_an_error_witness :
    ((fun _ => none : RedisStore) "absent" = none) ∧
    RedisConnector.get
        (Except.ok (redis_client_get (fun _ => none) "absent")) = Except.ok none ∧
    RedisConnector.delete
        (Except.ok ((redis_client_delete (fun _ => none) "absent").2)) = Except.ok 0 :=
  ⟨rfl,
   (missing_key_not_an_error (fun _ => none) "absent" rfl).1,
   (missing_key_not_an_error (fun _ => none) "absent" rfl).2⟩
